import Mathlib

/-!
Verification of the multimodal math mentor pipeline: a shallow embedding of
the agent graph (src/graph.py, src/agents.py), the memory store and ingestion
code (src/rag.py), the OCR input normalizer (src/processors.py) and the
configuration constants (src/config.py), with theorems settling the claims of the spec about control flow, error handling, the sandbox boundary, batching and
the append-only memory log.

External effects (language-model calls, the Python interpreter run inside
exec, the OCR engine, document loaders and the text splitter) are modelled as
explicit inputs: each run of the graph is parameterized by an Oracle record
holding the outcome of every external call, and each stage is the pure
function of state and oracle that the source code is.
-/

namespace MathMentor

/-! ## Memory store (src/rag.py, save_to_memory) -/

/-- A memory log entry, the JSON object `{problem, solution, verified}`
written by save_to_memory in src/rag.py. -/
structure MemoryEntry where
  problem : String
  solution : String
  verified : Bool
deriving DecidableEq, Repr

/-- Observable content of the memory file Config.MEMORY_FILE:
`none` when the file does not exist (os.path.exists is false),
`some (Except.error raw)` when it exists but json.load raises
JSONDecodeError on its raw text, and `some (Except.ok entries)` when it
parses as a JSON array of entries. -/
def MemoryFile : Type := Option (Except String (List MemoryEntry))

/-- save_to_memory from src/rag.py: read the file if it exists (falling back
to the empty list when json.load fails), append the new entry, and rewrite
the whole file as one JSON array. -/
def save_to_memory (problem solution : String) (verification_status : Bool)
    (file : MemoryFile) : MemoryFile :=
  let entry : MemoryEntry := ⟨problem, solution, verification_status⟩
  let data : List MemoryEntry :=
    match file with
    | none => []
    | some (Except.error _) => []
    | some (Except.ok parsed) => parsed
  some (Except.ok (data ++ [entry]))

/-- One call of save_to_memory per (problem, solution, verified) triple,
in order. -/
def entryOf (t : String × String × Bool) : MemoryEntry := ⟨t.1, t.2.1, t.2.2⟩

/-- Sequential composition of N save_to_memory calls. -/
def saveMany (ts : List (String × String × Bool)) (file : MemoryFile) : MemoryFile :=
  ts.foldl (fun f t => save_to_memory t.1 t.2.1 t.2.2 f) file

/-! ## OCR input normalizer (src/processors.py, _run_ocr_sync) -/

/-- The low-confidence warning banner prepended by _run_ocr_sync when the
mean OCR confidence falls below the threshold; the argument is the rendered
two-decimal confidence value interpolated into the first line. -/
def lowConfBanner (avgConfStr : String) : String :=
  "[⚠️ SYSTEM WARNING: Low OCR Confidence (" ++ avgConfStr ++ ")]\n" ++
  "The text extraction might be inaccurate. Please review and correct the math notation below carefully.\n" ++
  "---------------------------------------------------\n"

/-- Two-decimal rendering of a rational confidence, matching the format
spec .2f up to rounding mode (Python rounds half to even on binary floats;
exact ties on a [0,1] confidence are immaterial to every claim). -/
def fmt2 (q : ℚ) : String :=
  let n : ℤ := ⌊q * 100 + 1 / 2⌋
  let i := n / 100
  let f := (n % 100).toNat
  toString i ++ "." ++ (if f < 10 then "0" else "") ++ toString f

/-- _run_ocr_sync from src/processors.py. The EasyOCR reader is external; its
output is the list of (text, confidence) detections, and any exception from
image decoding or recognition is the error case. Confidences are modelled as
rationals in [0,1]. -/
def run_ocr_sync (ocr : Except String (List (String × ℚ))) : String :=
  match ocr with
  | Except.error e => "Error during OCR processing: " ++ e
  | Except.ok results =>
    let extracted_lines := results.map Prod.fst
    let confidences := results.map Prod.snd
    let full_text := String.intercalate "\n" extracted_lines
    let avg_conf : ℚ :=
      if confidences.isEmpty then 0
      else confidences.sum / (confidences.length : ℚ)
    if avg_conf < 1 / 2 then lowConfBanner (fmt2 avg_conf) ++ full_text
    else full_text

/-- The mean recognition confidence over all detected regions, as the spec
describes it (sum over count; 0 for an empty detection list, since rational
division by zero is zero, matching the explicit 0.0 fallback of the code). -/
def meanConfidence (results : List (String × ℚ)) : ℚ :=
  (results.map Prod.snd).sum / (results.length : ℚ)

/-! ## Agent state and stage implementations (src/agents.py)

AgentState is the TypedDict threaded through the LangGraph state machine.
Keys a TypedDict may leave absent are modelled as Option; main.py seeds
raw_input, input_type, messages, retrieved_docs, code_snippet and
code_output, and each stage returns a partial update that the orchestrator
merges by overwriting exactly the returned keys. -/

/-- The structured output schema of the parser stage (pydantic model
ParsedProblem in src/agents.py); pydantic validation guarantees every field
is present and well typed on the success path. -/
structure ParsedProblem where
  problem_text : String
  topic : String
  needs_clarification : Bool
deriving DecidableEq, Repr

/-- The parsed_problem dict stored in state: the success branch of the parser
stores result.dict() with all three keys, while its except branch stores
only needs_clarification set to true (problem_text and topic absent). -/
structure ParsedDict where
  problem_text : Option String
  topic : Option String
  needs_clarification : Bool
deriving DecidableEq, Repr

/-- problem_category values: the pydantic Literal on RouterDecision.category
restricts structured output to exactly these two, so a completed router call
yields one of them or raises a validation error inside the call. -/
inductive Category where
  | calculation
  | conceptual
deriving DecidableEq, Repr

/-- String rendering used when the category is interpolated into a trace
message. -/
def categoryStr : Category → String
  | Category.calculation => "calculation"
  | Category.conceptual => "conceptual"

/-- The structured output schema of the router stage. -/
structure RouterDecision where
  category : Category
  reasoning : String
deriving DecidableEq, Repr

/-- The structured output schema of the verifier stage. -/
structure Verification where
  is_correct : Bool
  critique : String
deriving DecidableEq, Repr

/-- The AgentState TypedDict from src/agents.py. -/
structure AgentState where
  raw_input : String
  input_type : String
  parsed_problem : Option ParsedDict
  problem_category : Option Category
  retrieved_docs : Option (List String)
  code_snippet : Option String
  code_output : Option String
  solution_plan : Option String
  final_answer : Option String
  is_correct : Option Bool
  explanation : Option String
  messages : List String
deriving DecidableEq, Repr

instance {ε α : Type} [DecidableEq ε] [DecidableEq α] : DecidableEq (Except ε α) := fun x y =>
  match x, y with
  | Except.ok a, Except.ok b => decidable_of_iff (a = b) (by simp)
  | Except.error a, Except.error b => decidable_of_iff (a = b) (by simp)
  | Except.ok _, Except.error _ => isFalse (fun h => Except.noConfusion h)
  | Except.error _, Except.ok _ => isFalse (fun h => Except.noConfusion h)

/-- Outcomes of every external call made during one run of the graph: the
structured-output call of the parser (which may fail with an exception whose
rendered reason is the error string), the decision of the router, the
code-generation call of the solver, the exec of that code (stdout on
success, the rendered exception on failure), the answer-formatting call, the
retrieved documents as (source, page_content) pairs, the RAG answer, the
verification, and the explainer text. -/
structure Oracle where
  parserResult : Except String ParsedProblem
  routerDecision : RouterDecision
  solverCode : String
  execResult : Except String String
  formatAnswer : String
  ragDocs : List (String × String)
  ragAnswer : String
  verification : Verification
  explanationText : String
deriving DecidableEq, Repr

/-- execute_python_math from src/agents.py: the exec of model-generated code
is external; its stdout is returned unchanged, and any exception is caught
and rendered as an Error: message instead of propagating. -/
def execute_python_math (execResult : Except String String) : String :=
  match execResult with
  | Except.ok stdout => stdout
  | Except.error e => "Error: " ++ e

/-- parser_agent from src/agents.py: on success stores result.dict() and a
topic trace message; the bare except branch stores a dict holding only
needs_clarification set to true together with the fixed message
"Parser: Error parsing input." — the caught exception itself is discarded. -/
def parser_agent (o : Oracle) (s : AgentState) : AgentState :=
  match o.parserResult with
  | Except.ok r =>
    { s with
      parsed_problem := some ⟨some r.problem_text, some r.topic, r.needs_clarification⟩,
      messages := ["Parser: Extracted topic \x27" ++ r.topic ++ "\x27"] }
  | Except.error _ =>
    { s with
      parsed_problem := some ⟨none, none, true⟩,
      messages := ["Parser: Error parsing input."] }

/-- router_agent from src/agents.py: stores the category of the structured decision and a routing trace message; it has no try/except, so a failing
call would propagate (the oracle models only completed calls). -/
def router_agent (o : Oracle) (s : AgentState) : AgentState :=
  { s with
    problem_category := some o.routerDecision.category,
    messages := ["Router: Routing to " ++ categoryStr o.routerDecision.category ++ " solver."] }

/-- python_solver_agent from src/agents.py: strips markdown code fences from
the generated code, runs it through execute_python_math, and stores the
code, its output and the formatted final answer. -/
def python_solver_agent (o : Oracle) (s : AgentState) : AgentState :=
  let code := ((o.solverCode.replace "```python" "").replace "```" "").trim
  let output := execute_python_math o.execResult
  { s with
    code_snippet := some code,
    code_output := some output,
    final_answer := some o.formatAnswer,
    messages := ["Solver: Executed Python calculation."] }

/-- rag_solver_agent from src/agents.py: formats each retrieved document
with its source label and stores the labelled documents and the model answer. -/
def rag_solver_agent (o : Oracle) (s : AgentState) : AgentState :=
  let formatted_docs := o.ragDocs.map (fun d => "[Source: " ++ d.1 ++ "]\n" ++ d.2)
  { s with
    retrieved_docs := some formatted_docs,
    final_answer := some o.ragAnswer,
    messages := ["Solver: Used RAG with " ++ toString o.ragDocs.length ++ " sources."] }

/-- verifier_agent from src/agents.py: stores the structured verdict and a
trace message. -/
def verifier_agent (o : Oracle) (s : AgentState) : AgentState :=
  { s with
    is_correct := some o.verification.is_correct,
    messages := ["Verifier: Solution is " ++
      (if o.verification.is_correct then "Correct" else "Incorrect") ++ "."] }

/-- explainer_agent from src/agents.py: stores only the explanation text. -/
def explainer_agent (o : Oracle) (s : AgentState) : AgentState :=
  { s with explanation := some o.explanationText }

/-! ## Graph wiring (src/graph.py, build_graph) -/

/-- Node names of the compiled StateGraph. -/
inductive Node where
  | parser
  | router
  | python_solver
  | rag_solver
  | verifier
  | explainer
deriving DecidableEq, Repr

/-- Result of the conditional edge after the parser. -/
inductive NextAfterParser where
  | toEnd
  | toRouter
deriving DecidableEq, Repr

/-- check_clarification from src/graph.py, reading
state.parsed_problem.get needs_clarification: END when true, router
otherwise. The parser stage always stores the dict, so the edge function is
given it directly. -/
def check_clarification (parsed : ParsedDict) : NextAfterParser :=
  if parsed.needs_clarification then NextAfterParser.toEnd else NextAfterParser.toRouter

/-- route_workflow from src/graph.py: calculation goes to python_solver and
anything else to rag_solver. -/
def route_workflow (category : Category) : Node :=
  if category = Category.calculation then Node.python_solver else Node.rag_solver

/-- check_correctness from src/graph.py: explainer when is_correct holds,
END otherwise; none encodes END. -/
def check_correctness (is_correct : Bool) : Option Node :=
  if is_correct then some Node.explainer else none

/-- One run of the compiled graph from build_graph in src/graph.py: the
entry point is parser; the conditional edges and the two fixed edges into
verifier follow the source wiring, and the result is the final state paired
with the list of nodes executed in order. The none branches of the three
matches correspond to Python KeyError paths that cannot arise because the
parser, router and verifier each always store the key just read. -/
def runGraph (o : Oracle) (s0 : AgentState) : AgentState × List Node :=
  let s1 := parser_agent o s0
  match s1.parsed_problem with
  | none => (s1, [Node.parser])
  | some parsed =>
    match check_clarification parsed with
    | NextAfterParser.toEnd => (s1, [Node.parser])
    | NextAfterParser.toRouter =>
      let s2 := router_agent o s1
      match s2.problem_category with
      | none => (s2, [Node.parser, Node.router])
      | some cat =>
        let solverNode := route_workflow cat
        let s3 :=
          match solverNode with
          | Node.python_solver => python_solver_agent o s2
          | _ => rag_solver_agent o s2
        let s4 := verifier_agent o s3
        match s4.is_correct with
        | none => (s4, [Node.parser, Node.router, solverNode, Node.verifier])
        | some ok =>
          match check_correctness ok with
          | some Node.explainer =>
            let s5 := explainer_agent o s4
            (s5, [Node.parser, Node.router, solverNode, Node.verifier, Node.explainer])
          | _ => (s4, [Node.parser, Node.router, solverNode, Node.verifier])

/-- The parser call succeeded and judged the input unambiguous — the runs
that proceed past the parser. -/
def parserOutcomeClear (o : Oracle) : Prop :=
  ∃ r, o.parserResult = Except.ok r ∧ r.needs_clarification = false

/-! ## Configuration (src/config.py) -/

namespace Config

def MODEL_NAME : String := "gpt-4o"

def EMBEDDING_MODEL : String := "text-embedding-3-small"

def RAG_BATCH_SIZE : Nat := 5

def MEMORY_FILE : String := "data/problem_memory.json"

def CHROMA_PATH : String := "data/chroma_db"

end Config

/-! ## Ingestion pipeline (src/rag.py, process_and_index_files) -/

/-- A file handed to process_and_index_files; contents stands for the bytes
returned by getvalue. -/
structure UploadedFile where
  name : String
  contents : String
deriving DecidableEq, Repr

/-- A langchain Document reduced to the two attributes the core reads and
writes: the source metadata tag and the page content. -/
structure Doc where
  source : String
  content : String
deriving DecidableEq, Repr

/-- The chunk_size literal passed to RecursiveCharacterTextSplitter in
process_and_index_files. -/
def chunk_size : Nat := 1000

/-- The chunk_overlap literal passed to RecursiveCharacterTextSplitter in
process_and_index_files. -/
def chunk_overlap : Nat := 200

/-- str.endswith, stated over the code points of the two strings: the suffix
test used by the loader dispatch. -/
def strEndsWith (s suffix : String) : Bool :=
  suffix.toList.isSuffixOf s.toList

/-- The loader dispatch in process_and_index_files: PyPDFLoader for .pdf,
TextLoader for .txt, and no loader (hence no documents) otherwise. The two
loaders are external libraries, modelled as functions from file contents to
raw documents. -/
def loadDocs (loadPdf loadTxt : String → List Doc) (f : UploadedFile) : List Doc :=
  if strEndsWith f.name ".pdf" then loadPdf f.contents
  else if strEndsWith f.name ".txt" then loadTxt f.contents
  else []

/-- The per-file loop of process_and_index_files: load each file and
overwrite the source metadata of every raw document with the originating file
name, extending one documents list in file order. -/
def collectDocuments (loadPdf loadTxt : String → List Doc)
    (files : List UploadedFile) : List Doc :=
  (files.map (fun f =>
    (loadDocs loadPdf loadTxt f).map (fun d => { d with source := f.name }))).flatten

/-- split_documents of RecursiveCharacterTextSplitter: the character-level
splitting algorithm is external (split1 maps one content string to its chunk
strings); each chunk inherits the metadata of the document it came from,
which is the documented behaviour of the library. -/
def splitDocuments (split1 : String → List String) (docs : List Doc) : List Doc :=
  (docs.map (fun d =>
    (split1 d.content).map (fun c => ({ source := d.source, content := c } : Doc)))).flatten

/-- The batching loop of process_and_index_files:
for i in range(0, total_chunks, batch_size) the slice from i to
i + batch_size is one batch; equivalently, peel off RAG_BATCH_SIZE chunks at
a time until none remain. -/
def chunkBatches (chunked_docs : List Doc) : List (List Doc) :=
  if h : chunked_docs.isEmpty then []
  else
    chunked_docs.take Config.RAG_BATCH_SIZE ::
      chunkBatches (chunked_docs.drop Config.RAG_BATCH_SIZE)
termination_by chunked_docs.length
decreasing_by
  simp only [List.length_drop]
  have hne : chunked_docs ≠ [] := fun hnil => h (by simp [hnil])
  have hpos : 0 < chunked_docs.length := List.length_pos.mpr hne
  simp only [Config.RAG_BATCH_SIZE]
  omega

/-- process_and_index_files from src/rag.py: collect and tag documents,
return early when none loaded, otherwise split into chunks and add each
batch to the vector store in order; the store is modelled as the ordered
list of indexed documents and add_documents as append. -/
def process_and_index_files (loadPdf loadTxt : String → List Doc)
    (split1 : String → List String) (files : List UploadedFile)
    (store : List Doc) : String × List Doc :=
  let documents := collectDocuments loadPdf loadTxt files
  if documents.isEmpty then ("No valid text extracted from files.", store)
  else
    let chunked_docs := splitDocuments split1 documents
    let batches := chunkBatches chunked_docs
    let store2 := batches.foldl (fun st b => st ++ b) store
    ("Successfully indexed " ++ toString files.length ++ " files (" ++
      toString chunked_docs.length ++ " chunks).", store2)

/-! ## The exec environment of execute_python_math (src/agents.py)

The globals dict passed to exec is literally
\x7b"__builtins__": __builtins__, "math": math, "numpy": numpy\x7d, so the
executed code sees the two math modules plus the entire builtins module of
the host interpreter. -/

/-- The names bound in the CPython builtins module, all of which the executed
code can invoke because __builtins__ is passed through unrestricted. -/
def pythonBuiltinNames : List String :=
  ["abs", "aiter", "all", "anext", "any", "ascii", "bin", "bool",
   "breakpoint", "bytearray", "bytes", "callable", "chr", "classmethod",
   "compile", "complex", "delattr", "dict", "dir", "divmod", "enumerate",
   "eval", "exec", "filter", "float", "format", "frozenset", "getattr",
   "globals", "hasattr", "hash", "help", "hex", "id", "input", "int",
   "isinstance", "issubclass", "iter", "len", "list", "locals", "map",
   "max", "memoryview", "min", "next", "object", "oct", "open", "ord",
   "pow", "print", "property", "range", "repr", "reversed", "round",
   "set", "setattr", "slice", "sorted", "staticmethod", "str", "sum",
   "super", "tuple", "type", "vars", "zip", "__import__",
   "True", "False", "None", "NotImplemented", "Ellipsis", "__debug__",
   "BaseException", "Exception", "ArithmeticError", "AssertionError",
   "AttributeError", "BlockingIOError", "BrokenPipeError", "BufferError",
   "ChildProcessError", "ConnectionAbortedError", "ConnectionError",
   "ConnectionRefusedError", "ConnectionResetError", "EOFError",
   "FileExistsError", "FileNotFoundError", "FloatingPointError",
   "GeneratorExit", "IOError", "ImportError", "IndentationError",
   "IndexError", "InterruptedError", "IsADirectoryError", "KeyError",
   "KeyboardInterrupt", "LookupError", "MemoryError",
   "ModuleNotFoundError", "NameError", "NotADirectoryError",
   "NotImplementedError", "OSError", "OverflowError", "PermissionError",
   "ProcessLookupError", "RecursionError", "ReferenceError",
   "RuntimeError", "StopAsyncIteration", "StopIteration", "SyntaxError",
   "SystemError", "SystemExit", "TabError", "TimeoutError", "TypeError",
   "UnboundLocalError", "UnicodeDecodeError", "UnicodeEncodeError",
   "UnicodeError", "UnicodeTranslateError", "ValueError", "Warning",
   "ZeroDivisionError"]

/-- The basic math and numeric libraries the spec allows the executed code
to see. -/
def mathNumericModules : List String := ["math", "numpy"]

/-- Every name the code run by execute_python_math can invoke directly: the
two module bindings plus, through the unrestricted __builtins__ entry, every
builtin of the host interpreter. -/
def execGlobalsSymbols : List String := mathNumericModules ++ pythonBuiltinNames

/-! ## Concrete fixtures used by witnesses -/

/-- A representative successful parse. -/
def sampleParsed : ParsedProblem :=
  ⟨"Integrate x^2 dx", "Calculus", false⟩

/-- A fully successful oracle: parser succeeds with an unambiguous problem,
router picks the calculation path, the generated code runs, and the
verifier approves. -/
def baseOracle : Oracle :=
  { parserResult := Except.ok sampleParsed,
    routerDecision := ⟨Category.calculation, "explicit computation"⟩,
    solverCode := "```python\nprint(1)\n```",
    execResult := Except.ok "1\n",
    formatAnswer := "x^3/3 + C",
    ragDocs := [("Curated_Seed_Data", "Integration Power Rule")],
    ragAnswer := "By the power rule, x^3/3 + C.",
    verification := ⟨true, "sound"⟩,
    explanationText := "Raise the power by one and divide." }

/-- The initial state built in main.py before app.astream: raw_input and
input_type from the confirmed text, empty messages, retrieved_docs,
code_snippet and code_output, every other key absent. -/
def initState : AgentState :=
  { raw_input := "Integrate x^2 dx",
    input_type := "text",
    parsed_problem := none,
    problem_category := none,
    retrieved_docs := some [],
    code_snippet := some "",
    code_output := some "",
    solution_plan := none,
    final_answer := none,
    is_correct := none,
    explanation := none,
    messages := [] }

/-! ## Theorems -/

/-- Appending onto a well-formed log always preserves the stored prefix. -/
lemma saveMany_ok (ts : List (String × String × Bool)) :
    ∀ l : List MemoryEntry,
      saveMany ts (some (Except.ok l)) = some (Except.ok (l ++ ts.map entryOf)) := by
  induction ts with
  | nil => intro l; simp [saveMany]
  | cons t ts ih =>
    intro l
    have hstep : save_to_memory t.1 t.2.1 t.2.2 (some (Except.ok l)) =
        some (Except.ok (l ++ [entryOf t])) := rfl
    calc saveMany (t :: ts) (some (Except.ok l))
        = saveMany ts (save_to_memory t.1 t.2.1 t.2.2 (some (Except.ok l))) := rfl
      _ = saveMany ts (some (Except.ok (l ++ [entryOf t]))) := by rw [hstep]
      _ = some (Except.ok (l ++ [entryOf t] ++ ts.map entryOf)) := ih _
      _ = some (Except.ok (l ++ (t :: ts).map entryOf)) := by
            simp [List.append_assoc]

/-- C8: appending N entries through N separate save_to_memory calls yields a
single JSON array with exactly those N entries in call order, and each
individual append onto a well-formed log keeps every previously stored entry
in place — nothing lost, duplicated, deleted or edited. -/
theorem memory_append_exact :
    (∀ ts : List (String × String × Bool), ts ≠ [] →
      saveMany ts none = some (Except.ok (ts.map entryOf)) ∧
      (ts.map entryOf).length = ts.length) ∧
    ∀ (l : List MemoryEntry) (p sol : String) (v : Bool),
      save_to_memory p sol v (some (Except.ok l)) = some (Except.ok (l ++ [⟨p, sol, v⟩])) := by
  constructor
  · intro ts hne
    refine ⟨?_, by simp⟩
    cases ts with
    | nil => exact absurd rfl hne
    | cons t ts =>
      calc saveMany (t :: ts) none
          = saveMany ts (save_to_memory t.1 t.2.1 t.2.2 none) := rfl
        _ = saveMany ts (some (Except.ok [entryOf t])) := rfl
        _ = some (Except.ok ([entryOf t] ++ ts.map entryOf)) := saveMany_ok _ _
        _ = some (Except.ok ((t :: ts).map entryOf)) := by simp
  · intro l p sol v; rfl

/-- C8 witness: two concrete calls starting from a nonexistent file leave a
two-entry array in call order. -/
theorem memory_append_exact_witness :
    ([("p1", "s1", true), ("p2", "s2", true)] : List (String × String × Bool)) ≠ [] ∧
    (saveMany [("p1", "s1", true), ("p2", "s2", true)] none =
      some (Except.ok ([("p1", "s1", true), ("p2", "s2", true)].map entryOf)) ∧
     (([("p1", "s1", true), ("p2", "s2", true)] : List (String × String × Bool)).map entryOf).length =
      ([("p1", "s1", true), ("p2", "s2", true)] : List (String × String × Bool)).length) :=
  ⟨by decide, memory_append_exact.1 _ (by decide)⟩

/-- C10: when the memory file exists but json.load fails on it, the log is
silently treated as empty and the file is rewritten as a one-element array
holding only the new entry, for every previous raw content and with no error
raised (save_to_memory is total). -/
theorem corrupt_memory_silently_overwritten :
    ∀ (raw p sol : String) (v : Bool),
      save_to_memory p sol v (some (Except.error raw)) = some (Except.ok [⟨p, sol, v⟩]) := by
  intro raw p sol v; rfl

/-- C3: the symbol set handed to the executed model-generated code contains
the unrestricted builtins — in particular open (filesystem), __import__
(loader for os, socket, subprocess and every other module), eval and exec —
none of which is among the basic math/numeric modules, so the interpreter is
not the constrained sandbox the spec requires. -/
theorem exec_globals_expose_primitives :
    "open" ∈ execGlobalsSymbols ∧ "__import__" ∈ execGlobalsSymbols ∧
    "eval" ∈ execGlobalsSymbols ∧ "exec" ∈ execGlobalsSymbols ∧
    "open" ∉ mathNumericModules ∧ "__import__" ∉ mathNumericModules := by
  refine ⟨?_, ?_, ?_, ?_, by decide, by decide⟩ <;>
    simp [execGlobalsSymbols, pythonBuiltinNames, mathNumericModules]

/-- C7: the OCR transcription carries the low-confidence banner exactly when
the mean recognition confidence over the detected regions is strictly below
the 0.5 threshold, and is returned bare otherwise. -/
theorem ocr_banner_iff_low_confidence :
    ∀ results : List (String × ℚ),
      (meanConfidence results < 1 / 2 →
        run_ocr_sync (Except.ok results) =
          lowConfBanner (fmt2 (meanConfidence results)) ++
            String.intercalate "\n" (results.map Prod.fst)) ∧
      (1 / 2 ≤ meanConfidence results →
        run_ocr_sync (Except.ok results) =
          String.intercalate "\n" (results.map Prod.fst)) := by
  intro results
  have havg : (if (results.map Prod.snd).isEmpty then (0 : ℚ)
      else (results.map Prod.snd).sum / ((results.map Prod.snd).length : ℚ)) =
      meanConfidence results := by
    by_cases h : results = []
    · subst h; simp [meanConfidence]
    · have hmap : results.map Prod.snd ≠ [] := by simpa using h
      simp [meanConfidence, hmap, List.length_map]
  have hrun : run_ocr_sync (Except.ok results) =
      if meanConfidence results < 1 / 2 then
        lowConfBanner (fmt2 (meanConfidence results)) ++
          String.intercalate "\n" (results.map Prod.fst)
      else String.intercalate "\n" (results.map Prod.fst) := by
    simp only [run_ocr_sync, havg]
  constructor
  · intro h; rw [hrun, if_pos h]
  · intro h; rw [hrun, if_neg (not_lt.mpr h)]

/-- C7 witness: a single region recognized at confidence 0.9 is returned
without the banner, and one at 0.3 gets the banner. -/
theorem ocr_banner_witness :
    (1 / 2 ≤ meanConfidence [("2x+3", (9 : ℚ) / 10)] ∧
      run_ocr_sync (Except.ok [("2x+3", (9 : ℚ) / 10)]) =
        String.intercalate "\n" ([("2x+3", (9 : ℚ) / 10)].map Prod.fst)) ∧
    (meanConfidence [("2x+3", (3 : ℚ) / 10)] < 1 / 2 ∧
      run_ocr_sync (Except.ok [("2x+3", (3 : ℚ) / 10)]) =
        lowConfBanner (fmt2 (meanConfidence [("2x+3", (3 : ℚ) / 10)])) ++
          String.intercalate "\n" ([("2x+3", (3 : ℚ) / 10)].map Prod.fst)) :=
  ⟨⟨by norm_num [meanConfidence],
    (ocr_banner_iff_low_confidence _).2 (by norm_num [meanConfidence])⟩,
   ⟨by norm_num [meanConfidence],
    (ocr_banner_iff_low_confidence _).1 (by norm_num [meanConfidence])⟩⟩

/-- C1: whenever a run reaches the verifier and the verifier reports
is_correct false, the graph stops at END right after the verifier: the node
sequence is parser, router, one solver, verifier — no explainer, no retry,
no loop — and the explanation field is left exactly as it started,
whichever solver path the router chose. -/
theorem verifier_false_is_terminal :
    ∀ (o : Oracle) (s0 : AgentState), parserOutcomeClear o →
      o.verification.is_correct = false →
      (runGraph o s0).2 = [Node.parser, Node.router,
        route_workflow o.routerDecision.category, Node.verifier] ∧
      Node.explainer ∉ (runGraph o s0).2 ∧
      (runGraph o s0).1.explanation = s0.explanation := by
  rintro o s0 ⟨r, hr, hnc⟩ hic
  cases hcat : o.routerDecision.category <;>
    simp [runGraph, parser_agent, router_agent, python_solver_agent, rag_solver_agent,
      verifier_agent, explainer_agent, check_clarification, route_workflow,
      check_correctness, execute_python_math, hr, hnc, hic, hcat]

/-- C1 witness: a calculation-path run whose verifier rejects ends at the
verifier with the explanation untouched. -/
theorem verifier_false_is_terminal_witness :
    parserOutcomeClear { baseOracle with verification := ⟨false, "wrong sign"⟩ } ∧
    ({ baseOracle with verification := ⟨false, "wrong sign"⟩ } : Oracle).verification.is_correct = false ∧
    ((runGraph { baseOracle with verification := ⟨false, "wrong sign"⟩ } initState).2 =
        [Node.parser, Node.router,
          route_workflow ({ baseOracle with verification := ⟨false, "wrong sign"⟩ } : Oracle).routerDecision.category,
          Node.verifier] ∧
      Node.explainer ∉ (runGraph { baseOracle with verification := ⟨false, "wrong sign"⟩ } initState).2 ∧
      (runGraph { baseOracle with verification := ⟨false, "wrong sign"⟩ } initState).1.explanation =
        initState.explanation) :=
  ⟨⟨sampleParsed, rfl, rfl⟩, rfl,
    verifier_false_is_terminal _ initState ⟨sampleParsed, rfl, rfl⟩ rfl⟩

/-- C2: whenever the parser stage stores needs_clarification true, the run
ends at END straight from the parser — the executed node list is just the
parser — and every state field other than parsed_problem and the messages
log keeps its initial value; in particular explanation stays unset. -/
theorem clarification_short_circuits :
    ∀ (o : Oracle) (s0 : AgentState) (p : ParsedDict),
      (parser_agent o s0).parsed_problem = some p → p.needs_clarification = true →
      (runGraph o s0).2 = [Node.parser] ∧
      (runGraph o s0).1.raw_input = s0.raw_input ∧
      (runGraph o s0).1.input_type = s0.input_type ∧
      (runGraph o s0).1.problem_category = s0.problem_category ∧
      (runGraph o s0).1.retrieved_docs = s0.retrieved_docs ∧
      (runGraph o s0).1.code_snippet = s0.code_snippet ∧
      (runGraph o s0).1.code_output = s0.code_output ∧
      (runGraph o s0).1.solution_plan = s0.solution_plan ∧
      (runGraph o s0).1.final_answer = s0.final_answer ∧
      (runGraph o s0).1.is_correct = s0.is_correct ∧
      (runGraph o s0).1.explanation = s0.explanation := by
  intro o s0 p hp hnc
  cases ho : o.parserResult with
  | ok r =>
    rw [parser_agent] at hp
    simp only [ho, Option.some.injEq] at hp
    have hr : r.needs_clarification = true := by
      have := congrArg ParsedDict.needs_clarification hp
      simpa [hnc] using this
    simp [runGraph, parser_agent, check_clarification, ho, hr]
  | error e =>
    simp [runGraph, parser_agent, check_clarification, ho]

/-- C2 witness: a parse that flags ambiguity ends the run immediately after
the parser with every other field unchanged. -/
theorem clarification_short_circuits_witness :
    (parser_agent { baseOracle with parserResult := Except.ok ⟨"", "Unknown", true⟩ } initState).parsed_problem =
      some ⟨some "", some "Unknown", true⟩ ∧
    (⟨some "", some "Unknown", true⟩ : ParsedDict).needs_clarification = true ∧
    ((runGraph { baseOracle with parserResult := Except.ok ⟨"", "Unknown", true⟩ } initState).2 = [Node.parser] ∧
      (runGraph { baseOracle with parserResult := Except.ok ⟨"", "Unknown", true⟩ } initState).1.raw_input = initState.raw_input ∧
      (runGraph { baseOracle with parserResult := Except.ok ⟨"", "Unknown", true⟩ } initState).1.input_type = initState.input_type ∧
      (runGraph { baseOracle with parserResult := Except.ok ⟨"", "Unknown", true⟩ } initState).1.problem_category = initState.problem_category ∧
      (runGraph { baseOracle with parserResult := Except.ok ⟨"", "Unknown", true⟩ } initState).1.retrieved_docs = initState.retrieved_docs ∧
      (runGraph { baseOracle with parserResult := Except.ok ⟨"", "Unknown", true⟩ } initState).1.code_snippet = initState.code_snippet ∧
      (runGraph { baseOracle with parserResult := Except.ok ⟨"", "Unknown", true⟩ } initState).1.code_output = initState.code_output ∧
      (runGraph { baseOracle with parserResult := Except.ok ⟨"", "Unknown", true⟩ } initState).1.solution_plan = initState.solution_plan ∧
      (runGraph { baseOracle with parserResult := Except.ok ⟨"", "Unknown", true⟩ } initState).1.final_answer = initState.final_answer ∧
      (runGraph { baseOracle with parserResult := Except.ok ⟨"", "Unknown", true⟩ } initState).1.is_correct = initState.is_correct ∧
      (runGraph { baseOracle with parserResult := Except.ok ⟨"", "Unknown", true⟩ } initState).1.explanation = initState.explanation) :=
  ⟨rfl, rfl, clarification_short_circuits _ initState ⟨some "", some "Unknown", true⟩ rfl rfl⟩

/-- The field holds an actually non-empty string. -/
def optStrNonEmpty (x : Option String) : Prop := ∃ s, x = some s ∧ s ≠ ""

/-- The field holds an actually non-empty list. -/
def optListNonEmpty (x : Option (List String)) : Prop := ∃ l, x = some l ∧ l ≠ []

/-- C4: route_workflow sends calculation to python_solver and every other
category to rag_solver (exhaustive and exclusive — the pydantic Literal on
RouterDecision.category already restricts a completed router call to the two
values of Category); once the router node has run, problem_category is set
to one of them; and starting from the initial state main.py builds, no final
state ever has a non-empty code_snippet or code_output together with a
non-empty retrieved_docs. -/
theorem routing_exhaustive_exclusive :
    (∀ c, route_workflow c = Node.python_solver ↔ c = Category.calculation) ∧
    (∀ c, route_workflow c = Node.rag_solver ↔ c ≠ Category.calculation) ∧
    ∀ (o : Oracle) (s0 : AgentState),
      s0.code_snippet = some "" → s0.code_output = some "" → s0.retrieved_docs = some [] →
      (Node.router ∈ (runGraph o s0).2 → ∃ c, (runGraph o s0).1.problem_category = some c) ∧
      ¬(optStrNonEmpty (runGraph o s0).1.code_snippet ∧
        optListNonEmpty (runGraph o s0).1.retrieved_docs) ∧
      ¬(optStrNonEmpty (runGraph o s0).1.code_output ∧
        optListNonEmpty (runGraph o s0).1.retrieved_docs) := by
  refine ⟨?_, ?_, ?_⟩
  · intro c; cases c <;> simp [route_workflow]
  · intro c; cases c <;> simp [route_workflow]
  · intro o s0 hcs hco hrd
    cases ho : o.parserResult with
    | error e =>
      simp [runGraph, parser_agent, check_clarification, ho, hcs, hco, hrd,
        optStrNonEmpty, optListNonEmpty]
    | ok r =>
      cases hnc : r.needs_clarification
      · cases hcat : o.routerDecision.category <;>
          cases hic : o.verification.is_correct <;>
            simp [runGraph, parser_agent, router_agent, python_solver_agent,
              rag_solver_agent, verifier_agent, explainer_agent, check_clarification,
              route_workflow, check_correctness, execute_python_math, ho, hnc, hcat,
              hic, hcs, hco, hrd, optStrNonEmpty, optListNonEmpty]
      · simp [runGraph, parser_agent, check_clarification, ho, hnc, hcs, hco, hrd,
          optStrNonEmpty, optListNonEmpty]

/-- C4 witness: the fully successful calculation run keeps retrieved_docs
empty while the code fields are populated. -/
theorem routing_exhaustive_exclusive_witness :
    initState.code_snippet = some "" ∧ initState.code_output = some "" ∧
    initState.retrieved_docs = some [] ∧
    ((Node.router ∈ (runGraph baseOracle initState).2 →
        ∃ c, (runGraph baseOracle initState).1.problem_category = some c) ∧
      ¬(optStrNonEmpty (runGraph baseOracle initState).1.code_snippet ∧
        optListNonEmpty (runGraph baseOracle initState).1.retrieved_docs) ∧
      ¬(optStrNonEmpty (runGraph baseOracle initState).1.code_output ∧
        optListNonEmpty (runGraph baseOracle initState).1.retrieved_docs)) :=
  ⟨rfl, rfl, rfl, routing_exhaustive_exclusive.2.2 baseOracle initState rfl rfl rfl⟩

/-- An oracle whose parser call fails with a schema violation. -/
def oracleFailSchema : Oracle :=
  { baseOracle with parserResult := Except.error "SchemaViolationError: malformed structured output" }

/-- An oracle whose parser call fails with a capability error. -/
def oracleFailCapability : Oracle :=
  { baseOracle with parserResult := Except.error "RateLimitError: capability unavailable" }

/-- C5 counterexample: the parser stage does not log the failure reason.
Two failures with different reasons produce byte-identical state deltas,
whose only trace message is the fixed string "Parser: Error parsing input."
that never mentions the reason, so the reason cannot be recovered from the
trace. -/
theorem parser_failure_reason_not_logged :
    oracleFailSchema.parserResult ≠ oracleFailCapability.parserResult ∧
    parser_agent oracleFailSchema initState = parser_agent oracleFailCapability initState ∧
    (parser_agent oracleFailSchema initState).messages = ["Parser: Error parsing input."] ∧
    ¬ ("SchemaViolationError".toList <:+: "Parser: Error parsing input.".toList) ∧
    ¬ ("malformed".toList <:+: "Parser: Error parsing input.".toList) := by
  refine ⟨by decide, rfl, rfl, by decide, by decide⟩

/-- C5 amended: on any failure of the structured-output call the parser
stage does not raise (it is a total function of the failure), returns a
state delta whose parsed_problem holds needs_clarification true, and logs
the fixed generic message "Parser: Error parsing input." into the trace —
the underlying failure reason is discarded, not logged. -/
theorem parser_failure_recovered :
    ∀ (o : Oracle) (s0 : AgentState) (e : String), o.parserResult = Except.error e →
      parser_agent o s0 =
        { s0 with parsed_problem := some ⟨none, none, true⟩,
                  messages := ["Parser: Error parsing input."] } := by
  intro o s0 e ho
  simp [parser_agent, ho]

/-- C5 witness: the schema-violation failure produces exactly the recovery
delta. -/
theorem parser_failure_recovered_witness :
    oracleFailSchema.parserResult =
      Except.error "SchemaViolationError: malformed structured output" ∧
    parser_agent oracleFailSchema initState =
      { initState with parsed_problem := some ⟨none, none, true⟩,
                       messages := ["Parser: Error parsing input."] } :=
  ⟨rfl, parser_failure_recovered oracleFailSchema initState
    "SchemaViolationError: malformed structured output" rfl⟩

/-- C6: when the exec of the generated code raises, execute_python_math
catches it and returns the rendered Error: message; the run records that
text as code_output and still proceeds to the verifier over the
unconditional python_solver → verifier edge instead of aborting. -/
theorem exec_error_recovered :
    ∀ (o : Oracle) (s0 : AgentState) (e : String),
      parserOutcomeClear o → o.routerDecision.category = Category.calculation →
      o.execResult = Except.error e →
      execute_python_math o.execResult = "Error: " ++ e ∧
      (runGraph o s0).1.code_output = some ("Error: " ++ e) ∧
      Node.verifier ∈ (runGraph o s0).2 := by
  rintro o s0 e ⟨r, hr, hnc⟩ hcat hexec
  cases hic : o.verification.is_correct <;>
    simp [runGraph, parser_agent, router_agent, python_solver_agent, rag_solver_agent,
      verifier_agent, explainer_agent, check_clarification, route_workflow,
      check_correctness, execute_python_math, hr, hnc, hcat, hexec, hic]

/-- C6 witness: a ZeroDivisionError inside the generated code surfaces as
the code_output text and the verifier still runs. -/
theorem exec_error_recovered_witness :
    parserOutcomeClear { baseOracle with execResult := Except.error "ZeroDivisionError: division by zero" } ∧
    ({ baseOracle with execResult := Except.error "ZeroDivisionError: division by zero" } : Oracle).routerDecision.category = Category.calculation ∧
    ({ baseOracle with execResult := Except.error "ZeroDivisionError: division by zero" } : Oracle).execResult = Except.error "ZeroDivisionError: division by zero" ∧
    (execute_python_math ({ baseOracle with execResult := Except.error "ZeroDivisionError: division by zero" } : Oracle).execResult =
        "Error: " ++ "ZeroDivisionError: division by zero" ∧
      (runGraph { baseOracle with execResult := Except.error "ZeroDivisionError: division by zero" } initState).1.code_output =
        some ("Error: " ++ "ZeroDivisionError: division by zero") ∧
      Node.verifier ∈ (runGraph { baseOracle with execResult := Except.error "ZeroDivisionError: division by zero" } initState).2) :=
  ⟨⟨sampleParsed, rfl, rfl⟩, rfl, rfl,
    exec_error_recovered _ initState _ ⟨sampleParsed, rfl, rfl⟩ rfl rfl⟩

/-- Length-bounded induction step for chunkBatches: concatenating the
batches of any list of length at most n gives back the list. -/
lemma chunkBatches_flatten_aux :
    ∀ (n : Nat) (l : List Doc), l.length ≤ n → (chunkBatches l).flatten = l := by
  intro n
  induction n with
  | zero =>
    intro l hl
    have hnil : l = [] := List.length_eq_zero.mp (Nat.le_zero.mp hl)
    subst hnil
    rw [chunkBatches]
    simp
  | succ n ih =>
    intro l hl
    rw [chunkBatches]
    split
    · next hemp => rw [List.isEmpty_iff] at hemp; simp [hemp]
    · next hemp =>
      have hne : l ≠ [] := fun hnil => hemp (by simp [hnil])
      have hpos : 0 < l.length := List.length_pos.mpr hne
      have hdrop : (l.drop Config.RAG_BATCH_SIZE).length ≤ n := by
        simp only [List.length_drop, Config.RAG_BATCH_SIZE]
        omega
      rw [List.flatten_cons, ih _ hdrop, List.take_append_drop]

/-- Concatenating the batches gives back exactly the chunk list: nothing
lost, nothing duplicated, order preserved. -/
lemma chunkBatches_flatten (l : List Doc) : (chunkBatches l).flatten = l :=
  chunkBatches_flatten_aux l.length l le_rfl

/-- Length-bounded induction step for the batch size bound. -/
lemma chunkBatches_sizes_aux :
    ∀ (n : Nat) (l : List Doc), l.length ≤ n →
      ∀ b ∈ chunkBatches l, b.length ≤ Config.RAG_BATCH_SIZE ∧ b ≠ [] := by
  intro n
  induction n with
  | zero =>
    intro l hl
    have hnil : l = [] := List.length_eq_zero.mp (Nat.le_zero.mp hl)
    subst hnil
    rw [chunkBatches]
    simp
  | succ n ih =>
    intro l hl
    rw [chunkBatches]
    split
    · simp
    · next hemp =>
      intro b hb
      rw [List.mem_cons] at hb
      have hne : l ≠ [] := fun hnil => hemp (by simp [hnil])
      rcases hb with rfl | hb
      · refine ⟨List.length_take_le _ _, ?_⟩
        simp [List.take_eq_nil_iff, hne, Config.RAG_BATCH_SIZE]
      · have hpos : 0 < l.length := List.length_pos.mpr hne
        have hdrop : (l.drop Config.RAG_BATCH_SIZE).length ≤ n := by
          simp only [List.length_drop, Config.RAG_BATCH_SIZE]
          omega
        exact ih _ hdrop b hb

/-- Every batch the loop produces holds between 1 and RAG_BATCH_SIZE chunks;
the last batch may be partial but is never empty and never skipped. -/
lemma chunkBatches_sizes (l : List Doc) :
    ∀ b ∈ chunkBatches l, b.length ≤ Config.RAG_BATCH_SIZE ∧ b ≠ [] :=
  chunkBatches_sizes_aux l.length l le_rfl

/-- Folding add_documents over the batches appends their concatenation to
the store. -/
lemma foldl_append_batches (batches : List (List Doc)) :
    ∀ store : List Doc,
      batches.foldl (fun st b => st ++ b) store = store ++ batches.flatten := by
  induction batches with
  | nil => intro store; simp
  | cons b bs ih => intro store; simp [ih, List.append_assoc]

/-- C9: ingestion is configured with chunk size 1000, overlap 200 and batch
size 5; every chunk carries the originating file name as its source tag;
the batch loop partitions the chunk list into consecutive non-empty batches
of at most 5 (a final partial batch included) whose concatenation is exactly
the chunk list; and the store after process_and_index_files is the old
store with every chunk appended exactly once, in order. -/
theorem ingestion_batches_exact :
    ∀ (loadPdf loadTxt : String → List Doc) (split1 : String → List String)
      (files : List UploadedFile) (store : List Doc),
      chunk_size = 1000 ∧ chunk_overlap = 200 ∧ Config.RAG_BATCH_SIZE = 5 ∧
      (∀ c ∈ splitDocuments split1 (collectDocuments loadPdf loadTxt files),
        ∃ f ∈ files, c.source = f.name) ∧
      (chunkBatches (splitDocuments split1 (collectDocuments loadPdf loadTxt files))).flatten =
        splitDocuments split1 (collectDocuments loadPdf loadTxt files) ∧
      (∀ b ∈ chunkBatches (splitDocuments split1 (collectDocuments loadPdf loadTxt files)),
        b.length ≤ Config.RAG_BATCH_SIZE ∧ b ≠ []) ∧
      (process_and_index_files loadPdf loadTxt split1 files store).2 =
        store ++ splitDocuments split1 (collectDocuments loadPdf loadTxt files) := by
  intro loadPdf loadTxt split1 files store
  refine ⟨rfl, rfl, rfl, ?_, chunkBatches_flatten _, chunkBatches_sizes _, ?_⟩
  · intro c hc
    rw [splitDocuments, List.mem_flatten] at hc
    obtain ⟨l, hl, hcl⟩ := hc
    rw [List.mem_map] at hl
    obtain ⟨d, hd, rfl⟩ := hl
    rw [List.mem_map] at hcl
    obtain ⟨cstr, _, rfl⟩ := hcl
    rw [collectDocuments, List.mem_flatten] at hd
    obtain ⟨l2, hl2, hdl⟩ := hd
    rw [List.mem_map] at hl2
    obtain ⟨f, hf, rfl⟩ := hl2
    rw [List.mem_map] at hdl
    obtain ⟨d0, _, rfl⟩ := hdl
    exact ⟨f, hf, rfl⟩
  · by_cases hd : (collectDocuments loadPdf loadTxt files).isEmpty
    · have hnil : collectDocuments loadPdf loadTxt files = [] := List.isEmpty_iff.mp hd
      simp [process_and_index_files, hd, hnil, splitDocuments]
    · simp [process_and_index_files, hd, foldl_append_batches, chunkBatches_flatten]

/-- Text loader stub for the witness: one raw document per file, tagged with
a temp path the pipeline then overwrites. -/
def sampleLoadTxt : String → List Doc := fun s => [⟨"temp_path", s⟩]

/-- PDF loader stub for the witness: no PDF files are involved. -/
def sampleLoadPdf : String → List Doc := fun _ => []

/-- Splitter stub for the witness: the content fits in one chunk. -/
def sampleSplit1 : String → List String := fun s => [s]

/-- The witness upload: a single short text file. -/
def sampleFiles : List UploadedFile := [⟨"notes.txt", "Integration Power Rule"⟩]

/-- C9 witness: the chunk produced from notes.txt is tagged with the file
name notes.txt. -/
theorem ingestion_batches_exact_witness :
    (⟨"notes.txt", "Integration Power Rule"⟩ : Doc) ∈
      splitDocuments sampleSplit1 (collectDocuments sampleLoadPdf sampleLoadTxt sampleFiles) ∧
    ∃ f ∈ sampleFiles, (⟨"notes.txt", "Integration Power Rule"⟩ : Doc).source = f.name :=
  ⟨by decide,
    (ingestion_batches_exact sampleLoadPdf sampleLoadTxt sampleSplit1 sampleFiles []).2.2.2.1
      ⟨"notes.txt", "Integration Power Rule"⟩ (by decide)⟩

end MathMentor
